import Mathlib

/-!
Verification of the tenant partition guard, invocation dispatcher, job
lifecycle tracker and distributed operation lock of the tf-acore-aas
control plane, via a shallow embedding of the Python sources
(`src/data-access-lib/src/data_access/client.py`, `src/bridge/handler.py`,
`scripts/failover_lock.py`, `src/data_access/models.py`).

Effects (structured security logs, CloudWatch metric emission, DynamoDB /
S3 calls, stream chunk relay) are embedded as explicit event traces of
type `List Ev`; Python exceptions become `Except` values; the
nondeterministic environment (HTTP reachability, stream contents, fresh
UUIDs, clock) is an explicit `World` record.
-/

deriving instance DecidableEq for Except

namespace TfAcoreAas

/-! ## String helpers

`dropLead p s` models Python's `s.removeprefix(p)` guarded by
`s.startswith(p)`: it returns `some` of the remainder exactly when `p`
leads `s`. -/

def startsWithStr (p s : String) : Bool :=
  p.data.isPrefixOf s.data

def dropLead (p s : String) : Option String :=
  if p.data.isPrefixOf s.data then some ⟨s.data.drop p.data.length⟩ else none

theorem string_data_inj {s t : String} (h : s.data = t.data) : s = t := by
  cases s; cases t; exact congrArg String.mk h

theorem string_append_data (s t : String) : (s ++ t).data = s.data ++ t.data := rfl

theorem dropLead_append (p s : String) : dropLead p (p ++ s) = some s := by
  unfold dropLead
  have hpre : p.data.isPrefixOf (p ++ s).data = true := by
    rw [string_append_data]
    exact List.isPrefixOf_iff_prefix.mpr ⟨s.data, rfl⟩
  rw [if_pos hpre]
  congr 1
  apply string_data_inj
  show ((p ++ s).data.drop p.data.length) = s.data
  rw [string_append_data, List.drop_left]

theorem dropLead_eq_some {p s r : String} (h : dropLead p s = some r) : s = p ++ r := by
  unfold dropLead at h
  by_cases hpre : p.data.isPrefixOf s.data = true
  · rw [if_pos hpre] at h
    obtain ⟨t, ht⟩ := List.isPrefixOf_iff_prefix.mp hpre
    apply string_data_inj
    rw [string_append_data, ← ht]
    have hr : r = ⟨s.data.drop p.data.length⟩ := by
      injection h with h'; exact h'.symm
    subst hr
    rw [← ht, List.drop_left]
  · rw [if_neg hpre] at h
    exact absurd h (by simp)

theorem string_append_left_cancel {p a b : String} (h : p ++ a = p ++ b) : a = b := by
  apply string_data_inj
  have : (p ++ a).data = (p ++ b).data := by rw [h]
  rw [string_append_data, string_append_data] at this
  exact List.append_cancel_left this

/-! ## Data model shared by the guard and the bridge (`data_access/models.py`) -/

inductive TenantTier where
  | basic
  | standard
  | premium
deriving DecidableEq

inductive InvocationMode where
  | sync
  | streaming
  | async
deriving DecidableEq

inductive InvocationStatus where
  | success
  | error
  | timeout
  | throttled
deriving DecidableEq

inductive JobStatus where
  | pending
  | running
  | completed
  | failed
deriving DecidableEq

structure TenantContext where
  tenant_id : String
  app_id : String
  tier : TenantTier
  sub : String
deriving DecidableEq

structure AgentRecord where
  agent_name : String
  version : String
  owner_team : String
  tier_minimum : TenantTier
  layer_hash : String
  layer_s3_key : String
  script_s3_key : String
  deployed_at : String
  invocation_mode : InvocationMode
  streaming_enabled : Bool
  runtime_arn : Option String
  estimated_duration_seconds : Option Nat
deriving DecidableEq

structure TenantAccessViolation where
  tenant_id : String
  caller_tenant_id : String
  attempted_key : String
deriving DecidableEq

/-! ## Items and event traces

A DynamoDB item / key is an attribute list; `getAttr it a` mirrors
Python's `it.get(a, "")`.  All side effects of the embedded code are
recorded as `Ev` events, in program order. -/

def Item : Type := List (String × String)

instance : DecidableEq Item := inferInstanceAs (DecidableEq (List (String × String)))

def getAttr (it : Item) (name : String) : String :=
  ((it.find? (fun p => p.1 == name)).map (fun p => p.2)).getD ""

def reprItem (it : Item) : String :=
  String.intercalate ", " (it.map (fun p => p.1 ++ "=" ++ p.2))

inductive Ev where
  | logViolation (caller target : String)
  | metricAttempt (caller target : String)
  | metricFailLog (caller target : String)
  | ddbGet (table : String) (key : Item)
  | ddbPut (table : String) (item : Item)
  | ddbUpdate (table : String) (key : Item) (vals : Item)
  | ddbDelete (table : String) (key : Item)
  | ddbQueryCall (table : String)
  | s3Get (bucket key : String)
  | s3Put (bucket key body : String)
  | s3Delete (bucket key : String)
  | s3Presign (bucket key : String)
  | chunkWrite (line : String)
  | firePost
  | swallowLog (msg : String)
deriving DecidableEq

def isStorageCall : Ev → Bool
  | .ddbGet _ _ => true
  | .ddbPut _ _ => true
  | .ddbUpdate _ _ _ => true
  | .ddbDelete _ _ => true
  | .ddbQueryCall _ => true
  | .s3Get _ _ => true
  | .s3Put _ _ _ => true
  | .s3Delete _ _ => true
  | .s3Presign _ _ => true
  | _ => false

def isMetricAttempt : Ev → Bool
  | .metricAttempt _ _ => true
  | _ => false

/-! ## Tenant partition guard — DynamoDB side (`client.py`)

`TENANT_PK_TAG` embeds the source's `_TENANT_PK_PREFIX = "TENANT#"`.
`cwOk` says whether the CloudWatch `put_metric_data` call succeeds; the
source's `_emit_tenant_violation_metric` swallows that failure. -/

def TENANT_PK_TAG : String := "TENANT#"

def encodedTenant (it : Item) : Option String :=
  dropLead TENANT_PK_TAG (getAttr it "PK")

def emit_tenant_violation_metric (cwOk : Bool) (caller target : String) : List Ev :=
  [.metricAttempt caller target] ++ (if cwOk then [] else [.metricFailLog caller target])

def violationEvents (cwOk : Bool) (caller target : String) : List Ev :=
  [.logViolation caller target] ++ emit_tenant_violation_metric cwOk caller target

/-- `_raise_violation`: log the structured security event, emit the
best-effort metric, then surface the typed violation (the `Except.error`
the caller returns). -/
def raise_violation (cwOk : Bool) (caller target attempted : String) :
    List Ev × TenantAccessViolation :=
  (violationEvents cwOk caller target, ⟨target, caller, attempted⟩)

def validate_pk (cwOk : Bool) (tenant_id : String) (key : Item) :
    List Ev × Except TenantAccessViolation Unit :=
  match dropLead TENANT_PK_TAG (getAttr key "PK") with
  | none => ([], .ok ())
  | some target =>
    if getAttr key "PK" = TENANT_PK_TAG ++ tenant_id then ([], .ok ())
    else (violationEvents cwOk tenant_id target,
      .error ⟨target, tenant_id, reprItem key⟩)

/-- The platform single-table store: pairs of (table name, item). -/
def Store : Type := List (String × Item)

instance : DecidableEq Store := inferInstanceAs (DecidableEq (List (String × Item)))

def keyMatches (a b : Item) : Bool :=
  getAttr a "PK" == getAttr b "PK" && getAttr a "SK" == getAttr b "SK"

def storeFind (s : Store) (table : String) (key : Item) : Option Item :=
  (s.find? (fun e => e.1 == table && keyMatches e.2 key)).map (fun e => e.2)

def setAttr (it : Item) (name v : String) : Item :=
  (name, v) :: it.filter (fun p => p.1 != name)

def applyUpdateVals (it : Item) (vals : Item) : Item :=
  vals.foldl (fun acc p => setAttr acc p.1 p.2) it

def applyEv (s : Store) : Ev → Store
  | .ddbPut table item =>
      (table, item) :: s.filter (fun e => !(e.1 == table && keyMatches e.2 item))
  | .ddbDelete table key =>
      s.filter (fun e => !(e.1 == table && keyMatches e.2 key))
  | .ddbUpdate table key vals =>
      match storeFind s table key with
      | some it =>
          (table, applyUpdateVals it vals)
            :: s.filter (fun e => !(e.1 == table && keyMatches e.2 key))
      | none => (table, applyUpdateVals key vals) :: s
  | _ => s

def runStore (s : Store) (evs : List Ev) : Store :=
  evs.foldl applyEv s

/-- Sequencing of the guard's source code shape `self._validate_pk(key)`
(resp. `self._validate_key(key)`) followed by the underlying storage call:
the storage call's events and result happen only when validation passed. -/
def guardThen {α : Type} (val : List Ev × Except TenantAccessViolation Unit)
    (act : List Ev × α) : List Ev × Except TenantAccessViolation α :=
  match val with
  | (evs, .error v) => (evs, .error v)
  | (evs, .ok _) => (evs ++ act.1, .ok act.2)

def get_item (cwOk : Bool) (tenant_id : String) (s : Store) (table : String) (key : Item) :
    List Ev × Except TenantAccessViolation (Option Item) :=
  guardThen (validate_pk cwOk tenant_id key)
    ([.ddbGet table key], storeFind s table key)

def put_item (cwOk : Bool) (tenant_id : String) (table : String) (item : Item) :
    List Ev × Except TenantAccessViolation Unit :=
  guardThen (validate_pk cwOk tenant_id item)
    ([.ddbPut table item], ())

def update_item (cwOk : Bool) (tenant_id : String) (s : Store) (table : String)
    (key : Item) (vals : Item) :
    List Ev × Except TenantAccessViolation Item :=
  guardThen (validate_pk cwOk tenant_id key)
    ([.ddbUpdate table key vals], applyUpdateVals ((storeFind s table key).getD key) vals)

def delete_item (cwOk : Bool) (tenant_id : String) (table : String) (key : Item) :
    List Ev × Except TenantAccessViolation Unit :=
  guardThen (validate_pk cwOk tenant_id key)
    ([.ddbDelete table key], ())

/-! ### Range queries (`TenantScopedDynamoDB.query`)

The partition key condition is always `Key("PK").eq(f"TENANT#{tenant_id}")`;
the caller supplies at most a sort-key condition, a filter expression, a
limit, a scan direction and a pagination start key — never a partition
key.  `ddbQueryEngine` models the DynamoDB engine: key condition first,
then direction, pagination resume, limit, and filter expression. -/

def skOk (skCond : Option (String → Bool)) (it : Item) : Bool :=
  match skCond with
  | none => true
  | some f => f (getAttr it "SK")

def keyConditionFilter (items : List Item) (pkVal : String)
    (skCond : Option (String → Bool)) : List Item :=
  items.filter (fun it => getAttr it "PK" == pkVal && skOk skCond it)

def applyDirection (forward : Bool) (l : List Item) : List Item :=
  if forward then l else l.reverse

def applyStartKey (startKey : Option Item) (l : List Item) : List Item :=
  match startKey with
  | none => l
  | some k => (l.dropWhile (fun it => !keyMatches it k)).drop 1

def applyLimit (limit : Option Nat) (l : List Item) : List Item :=
  match limit with
  | none => l
  | some n => l.take n

def applyFilterExpr (filterExpr : Option (Item → Bool)) (l : List Item) : List Item :=
  match filterExpr with
  | none => l
  | some f => l.filter f

def ddbQueryEngine (items : List Item) (pkVal : String) (skCond : Option (String → Bool))
    (filterExpr : Option (Item → Bool)) (limit : Option Nat) (forward : Bool)
    (startKey : Option Item) : List Item :=
  applyFilterExpr filterExpr
    (applyLimit limit
      (applyStartKey startKey
        (applyDirection forward (keyConditionFilter items pkVal skCond))))

def guard_query (tenant_id : String) (s : Store) (table : String)
    (skCond : Option (String → Bool)) (filterExpr : Option (Item → Bool))
    (limit : Option Nat) (forward : Bool) (startKey : Option Item) : List Item :=
  ddbQueryEngine (s.filterMap (fun e => if e.1 == table then some e.2 else none))
    (TENANT_PK_TAG ++ tenant_id) skCond filterExpr limit forward startKey

/-! ## Tenant partition guard — S3 side (`TenantScopedS3`)

Every object key must fall under `tenants/{tenant_id}/`; `_validate_key`
extracts a best-effort target tenant from a foreign key before raising. -/

def S3_TENANT_DIR : String := "tenants/"

def s3TenantScope (tenant_id : String) : String :=
  S3_TENANT_DIR ++ tenant_id ++ "/"

/-- An S3 bucket's contents: (bucket, key, body) triples. -/
def S3Store : Type := List (String × String × String)

instance : DecidableEq S3Store :=
  inferInstanceAs (DecidableEq (List (String × String × String)))

def s3Find (b : S3Store) (bucket key : String) : Option String :=
  (b.find? (fun e => e.1 == bucket && e.2.1 == key)).map (fun e => e.2.2)

def applyS3Ev (b : S3Store) : Ev → S3Store
  | .s3Put bucket key body =>
      (bucket, key, body) :: b.filter (fun e => !(e.1 == bucket && e.2.1 == key))
  | .s3Delete bucket key =>
      b.filter (fun e => !(e.1 == bucket && e.2.1 == key))
  | _ => b

def runS3 (b : S3Store) (evs : List Ev) : S3Store :=
  evs.foldl applyS3Ev b

/-- Python's `str.split` on a one-character separator, at the char-list
level (structural, so it evaluates inside the kernel). -/
def splitChars (sep : Char) : List Char → List (List Char)
  | [] => [[]]
  | c :: rest =>
    let r := splitChars sep rest
    if c = sep then [] :: r
    else
      match r with
      | h :: t => (c :: h) :: t
      | [] => [[c]]

def pySplit (sep : Char) (s : String) : List String :=
  (splitChars sep s.data).map (fun cs => ⟨cs⟩)

/-- Best-effort extraction of the target tenant from a foreign object key
(`parts = key.split("/"); parts[1] if len(parts) >= 2 else "unknown"`). -/
def s3TargetTenant (key : String) : String :=
  if startsWithStr S3_TENANT_DIR key then
    match (pySplit '/' key).get? 1 with
    | some t => t
    | none => "unknown"
  else "unknown"

def s3_validate_key (cwOk : Bool) (tenant_id : String) (key : String) :
    List Ev × Except TenantAccessViolation Unit :=
  if startsWithStr (s3TenantScope tenant_id) key then ([], .ok ())
  else (violationEvents cwOk tenant_id (s3TargetTenant key),
    .error ⟨s3TargetTenant key, tenant_id, key⟩)

def get_object (cwOk : Bool) (tenant_id : String) (b : S3Store) (bucket key : String) :
    List Ev × Except TenantAccessViolation (Option String) :=
  guardThen (s3_validate_key cwOk tenant_id key)
    ([.s3Get bucket key], s3Find b bucket key)

def put_object (cwOk : Bool) (tenant_id : String) (bucket key body : String) :
    List Ev × Except TenantAccessViolation Unit :=
  guardThen (s3_validate_key cwOk tenant_id key)
    ([.s3Put bucket key body], ())

def delete_object (cwOk : Bool) (tenant_id : String) (bucket key : String) :
    List Ev × Except TenantAccessViolation Unit :=
  guardThen (s3_validate_key cwOk tenant_id key)
    ([.s3Delete bucket key], ())

/-- Model of the opaque URL string produced by boto3's presigner. -/
def presignedUrlFor (clientMethod bucket key : String) (expiresIn : Nat) : String :=
  clientMethod ++ ":" ++ bucket ++ "/" ++ key ++ "?expires=" ++ toString expiresIn

def generate_presigned_url (cwOk : Bool) (tenant_id : String) (bucket key : String)
    (expiresIn : Nat) (clientMethod : String) :
    List Ev × Except TenantAccessViolation String :=
  guardThen (s3_validate_key cwOk tenant_id key)
    ([.s3Presign bucket key], presignedUrlFor clientMethod bucket key expiresIn)

/-! ## Invocation dispatcher (`bridge/handler.py`)

The outside world — HTTP reachability of the mock runtime, the stream it
produces, fresh UUIDs, the clock, CloudWatch health — is an explicit
`World`; the dispatcher is a pure function of it.  Python exceptions
raised inside (a) `handle_sync_invocation`, (b) `handle_streaming_invocation`
and (c) `handle_async_invocation` are `Except BridgeExn`, caught by
`invoke_mock_runtime`'s blanket `except Exception` which converts them to
a 502 BAD_GATEWAY response. -/

def INVOCATIONS_TABLE : String := "platform-invocations"

def JOBS_TABLE : String := "platform-jobs"

def INVOCATION_TTL_SECONDS : Nat := 90 * 24 * 60 * 60

def JOB_TTL_SECONDS : Nat := 7 * 24 * 60 * 60

def tier_order : TenantTier → Nat
  | .basic => 0
  | .standard => 1
  | .premium => 2

def statusStr : InvocationStatus → String
  | .success => "success"
  | .error => "error"
  | .timeout => "timeout"
  | .throttled => "throttled"

def modeStr : InvocationMode → String
  | .sync => "sync"
  | .streaming => "streaming"
  | .async => "async"

/-- One SSE chunk of the runtime's response body, as `handle_sync_invocation`
decodes it (a `data:` line holding JSON with a `type` field, or `[DONE]`). -/
inductive RuntimeChunk where
  | text (content : String)
  | other
  | done
deriving DecidableEq

def collectText : List RuntimeChunk → String
  | [] => ""
  | .done :: _ => ""
  | .text c :: rest => c ++ collectText rest
  | .other :: rest => collectText rest

/-- Outcome of the async fire step (`requests.post(..., timeout=2)`). -/
inductive FireOutcome where
  | posted
  | readTimeout
  | connErr
deriving DecidableEq

inductive BridgeExn where
  | connectionError
  | httpError
deriving DecidableEq

structure World where
  connectOk : Bool
  statusOk : Bool
  syncChunks : List RuntimeChunk
  streamLines : List String
  streamTermError : Bool
  fire : FireOutcome
  hasResponseStream : Bool
  cwOk : Bool
  freshInvocationId : String
  freshJobId : String
  nowIso : String
  nowTs : Nat
  latencyMs : Nat
deriving DecidableEq

inductive RespBody where
  | err (code message requestId : String)
  | syncOut (invocationId agentName agentVersion output : String) (latencyMs : Nat)
  | accepted (jobId pollUrl webhookDelivery : String)
deriving DecidableEq

inductive Resp where
  | http (statusCode : Nat) (body : RespBody)
  | streamDone
deriving DecidableEq

def respStatus : Resp → Option Nat
  | .http s _ => some s
  | .streamDone => none

def error_response (statusCode : Nat) (code message requestId : String) : Resp :=
  .http statusCode (.err code message requestId)

def pyTruthy (s : Option String) : Bool :=
  !(s.getD "").isEmpty

/-- The item written by `log_invocation` (an `InvocationRecord` flattened to
DynamoDB attributes; `record.pk = TENANT#{tenant_id}`,
`record.sk = INV#{timestamp}#{invocation_id}`, no jitter on this path). -/
def invocationItem (ctx : TenantContext) (agent : AgentRecord) (invocationId : String)
    (status : InvocationStatus) (latencyMs : Nat) (mode : InvocationMode)
    (nowIso : String) (nowTs : Nat) (jobId : Option String) : Item :=
  [("PK", TENANT_PK_TAG ++ ctx.tenant_id),
   ("SK", "INV#" ++ nowIso ++ "#" ++ invocationId),
   ("invocation_id", invocationId),
   ("tenant_id", ctx.tenant_id),
   ("app_id", ctx.app_id),
   ("agent_name", agent.agent_name),
   ("agent_version", agent.version),
   ("session_id", "mock-session"),
   ("input_tokens", "0"),
   ("output_tokens", "0"),
   ("latency_ms", toString latencyMs),
   ("status", statusStr status),
   ("runtime_region", "eu-west-1"),
   ("invocation_mode", modeStr mode),
   ("timestamp", nowIso),
   ("ttl", toString (nowTs + INVOCATION_TTL_SECONDS))]
  ++ (match jobId with
      | some j => [("job_id", j)]
      | none => [])

/-- The item written by `log_job` (a fresh `JobRecord` in `pending`;
`record.pk = JOB#{job_id}`, `record.sk = "METADATA"`). -/
def jobItem (ctx : TenantContext) (agent : AgentRecord) (jobId : String)
    (nowIso : String) (nowTs : Nat) (webhookId : Option String) : Item :=
  [("PK", "JOB#" ++ jobId),
   ("SK", "METADATA"),
   ("job_id", jobId),
   ("tenant_id", ctx.tenant_id),
   ("agent_name", agent.agent_name),
   ("status", "pending"),
   ("created_at", nowIso),
   ("ttl", toString (nowTs + JOB_TTL_SECONDS))]
  ++ (match webhookId with
      | some w => [("webhook_url", w)]
      | none => [])

/-- The `try: db.put_item(...) except Exception: logger.exception(msg)` block
shared by `log_invocation` and `log_job`: any exception from the guarded
put — a `TenantAccessViolation` included — is caught and only logged. -/
def put_swallowing (cwOk : Bool) (ctx : TenantContext) (table : String) (item : Item)
    (msg : String) : List Ev :=
  match put_item cwOk ctx.tenant_id table item with
  | (evs, .ok _) => evs
  | (evs, .error _) => evs ++ [.swallowLog msg]

def log_invocation (cwOk : Bool) (ctx : TenantContext) (agent : AgentRecord)
    (invocationId : String) (status : InvocationStatus) (latencyMs : Nat)
    (mode : InvocationMode) (nowIso : String) (nowTs : Nat) (jobId : Option String) :
    List Ev :=
  put_swallowing cwOk ctx INVOCATIONS_TABLE
    (invocationItem ctx agent invocationId status latencyMs mode nowIso nowTs jobId)
    "Failed to log invocation"

def log_job (cwOk : Bool) (ctx : TenantContext) (item : Item) : List Ev :=
  put_swallowing cwOk ctx JOBS_TABLE item "Failed to log job"

def handle_sync_invocation (w : World) (ctx : TenantContext) (agent : AgentRecord) :
    List Ev × Except BridgeExn Resp :=
  if !w.connectOk then ([], .error .connectionError)
  else if !w.statusOk then ([], .error .httpError)
  else
    let fullText := collectText w.syncChunks
    let evs := log_invocation w.cwOk ctx agent w.freshInvocationId .success w.latencyMs
      .sync w.nowIso w.nowTs none
    (evs,
     .ok (.http 200 (.syncOut w.freshInvocationId agent.agent_name agent.version fullText
       w.latencyMs)))

def handle_streaming_invocation (w : World) (ctx : TenantContext) (agent : AgentRecord)
    (requestId : String) : List Ev × Except BridgeExn Resp :=
  if !w.hasResponseStream then
    ([], .ok (error_response 500 "INTERNAL_ERROR"
      "Response streaming not enabled for this Lambda" requestId))
  else if !w.connectOk then ([], .error .connectionError)
  else if !w.statusOk then ([], .error .httpError)
  else
    let chunks := (w.streamLines.filter (fun l => !l.isEmpty)).map Ev.chunkWrite
    if w.streamTermError then (chunks, .error .connectionError)
    else
      (chunks ++ log_invocation w.cwOk ctx agent w.freshInvocationId .success w.latencyMs
        .streaming w.nowIso w.nowTs none,
       .ok .streamDone)

def handle_async_invocation (w : World) (ctx : TenantContext) (agent : AgentRecord)
    (webhookId : Option String) : List Ev × Except BridgeExn Resp :=
  let jobId := w.freshJobId
  let jobEvs := log_job w.cwOk ctx (jobItem ctx agent jobId w.nowIso w.nowTs webhookId)
  match w.fire with
  | .connErr => (jobEvs ++ [.firePost], .error .connectionError)
  | _ =>
      (jobEvs ++ [.firePost]
        ++ log_invocation w.cwOk ctx agent w.freshInvocationId .success w.latencyMs
             .async w.nowIso w.nowTs (some jobId),
       .ok (.http 202 (.accepted jobId ("/v1/jobs/" ++ jobId)
         (if pyTruthy webhookId then "registered" else "not_registered"))))

def invoke_mock_runtime (w : World) (agent : AgentRecord) (ctx : TenantContext)
    (sessionId webhookId : Option String) (requestId : String) : List Ev × Resp :=
  let inner :=
    match agent.invocation_mode with
    | .streaming => handle_streaming_invocation w ctx agent requestId
    | .async => handle_async_invocation w ctx agent webhookId
    | .sync => handle_sync_invocation w ctx agent
  match inner with
  | (evs, .ok r) => (evs, r)
  | (evs, .error _) =>
      (evs, error_response 502 "BAD_GATEWAY" "Failed to communicate with agent runtime"
        requestId)

structure HandlerBody where
  input : Option String
  sessionId : Option String
  webhookId : Option String
deriving DecidableEq

/-- The parsed Lambda event: authorizer context, path parameter, and the
request body (`none` models a JSON decode failure). -/
structure HandlerEvent where
  tenantid : Option String
  appid : Option String
  tier : TenantTier
  sub : String
  agentName : Option String
  body : Option HandlerBody
deriving DecidableEq

def handler (ev : HandlerEvent) (registry : Option AgentRecord) (mockUrl : Option String)
    (w : World) (requestId : String) : List Ev × Resp :=
  if !pyTruthy ev.tenantid || !pyTruthy ev.appid then
    ([], error_response 401 "UNAUTHENTICATED" "Missing tenant context" requestId)
  else
    let ctx : TenantContext := ⟨ev.tenantid.getD "", ev.appid.getD "", ev.tier, ev.sub⟩
    if !pyTruthy ev.agentName then
      ([], error_response 400 "INVALID_REQUEST" "Missing agentName in path" requestId)
    else
      match ev.body with
      | none =>
          ([], error_response 400 "INVALID_REQUEST" "Invalid JSON in request body" requestId)
      | some body =>
          if !pyTruthy body.input then
            ([], error_response 400 "INVALID_REQUEST" "Missing 'input' in request body"
              requestId)
          else
            match registry with
            | none =>
                ([], error_response 404 "NOT_FOUND"
                  ("Agent '" ++ ev.agentName.getD "" ++ "' not found") requestId)
            | some agent =>
                if tier_order ev.tier < tier_order agent.tier_minimum then
                  ([], error_response 403 "FORBIDDEN"
                    "Tenant tier insufficient for this agent" requestId)
                else
                  match mockUrl with
                  | some _ => invoke_mock_runtime w agent ctx body.sessionId body.webhookId
                      requestId
                  | none =>
                      ([], error_response 501 "NOT_IMPLEMENTED"
                        "Real Runtime invocation not yet implemented" requestId)

/-! ## Distributed operation lock (`scripts/failover_lock.py`)

The `platform-ops-locks` table is an association list from lock name to
record.  `acquire_lock` embeds the conditional `put_item` with
`ConditionExpression="attribute_not_exists(PK)"`; `release_lock` embeds
the conditional `delete_item` with `ConditionExpression="lockId = :lock_id"`
when a token is presented (DynamoDB fails that condition both on a stored
token mismatch and on an absent item) and the unconditional delete of the
`--force` path when none is.  The fresh `uuid4()` ownership token and the
clock are parameters. -/

def DEFAULT_LOCK_TTL_SECONDS : Nat := 300

structure LockRecord where
  lock_name : String
  lock_id : String
  acquired_by : String
  acquired_at : String
  ttl : Nat
deriving DecidableEq

def LockStore : Type := List (String × LockRecord)

instance : DecidableEq LockStore :=
  inferInstanceAs (DecidableEq (List (String × LockRecord)))

def lookupLock (s : LockStore) (name : String) : Option LockRecord :=
  (s.find? (fun e => e.1 == name)).map (fun e => e.2)

def removeLock (s : LockStore) (name : String) : LockStore :=
  s.filter (fun e => e.1 != name)

inductive LockError where
  | alreadyHeld
  | ownershipMismatch
deriving DecidableEq

def acquire_lock (store : LockStore) (lock_name acquired_by freshLockId acquiredAtIso : String)
    (nowTs ttl_seconds : Nat) : LockStore × Except LockError LockRecord :=
  let record : LockRecord :=
    ⟨lock_name, freshLockId, acquired_by, acquiredAtIso, nowTs + ttl_seconds⟩
  match lookupLock store lock_name with
  | some _ => (store, .error .alreadyHeld)
  | none => ((lock_name, record) :: store, .ok record)

def release_lock (store : LockStore) (lock_name : String) (lock_id : Option String) :
    LockStore × Except LockError Bool :=
  match lock_id with
  | some tok =>
      match lookupLock store lock_name with
      | some record =>
          if record.lock_id = tok then (removeLock store lock_name, .ok true)
          else (store, .error .ownershipMismatch)
      | none => (store, .error .ownershipMismatch)
  | none =>
      match lookupLock store lock_name with
      | some _ => (removeLock store lock_name, .ok true)
      | none => (store, .ok false)

/-! ## Job lifecycle tracker -/

def jobRank : JobStatus → Nat
  | .pending => 0
  | .running => 1
  | .completed => 2
  | .failed => 2

inductive JobTransitionError where
  | nonMonotonic
deriving DecidableEq

/-- Modelled from the spec: the Job Lifecycle Tracker's status-transition
operation is absent from `src/` — `src/async_runner/handler.py` is an empty
stub and `data_access/models.py` only declares the frozen `JobRecord`
dataclass with the docstring `Lifecycle: PENDING → RUNNING → COMPLETED |
FAILED`.  Per spec §4.4, every transition must move the status strictly
forward along pending → running → completed | failed, and any backward move
(e.g. completed → running) is rejected. -/
def jobTransition (current target : JobStatus) : Except JobTransitionError JobStatus :=
  if jobRank current < jobRank target then .ok target else .error .nonMonotonic

/-! ## Shared lemmas about the guard's validation -/

theorem validate_pk_own (cwOk : Bool) (tenant_id : String) (key : Item)
    (h : getAttr key "PK" = TENANT_PK_TAG ++ tenant_id) :
    validate_pk cwOk tenant_id key = ([], .ok ()) := by
  unfold validate_pk
  rw [h, dropLead_append]
  exact if_pos rfl

theorem validate_pk_mismatch (cwOk : Bool) (tenant_id : String) (key : Item) (tg : String)
    (h1 : encodedTenant key = some tg) (h2 : tg ≠ tenant_id) :
    validate_pk cwOk tenant_id key
      = (violationEvents cwOk tenant_id tg, .error ⟨tg, tenant_id, reprItem key⟩) := by
  have hpk : getAttr key "PK" = TENANT_PK_TAG ++ tg := dropLead_eq_some h1
  have hne : ¬ TENANT_PK_TAG ++ tg = TENANT_PK_TAG ++ tenant_id := by
    intro hcontra
    exact h2 (string_append_left_cancel hcontra)
  unfold validate_pk
  rw [hpk, dropLead_append]
  exact if_neg hne

theorem validate_pk_shape (cwOk : Bool) (tenant_id : String) (key : Item) :
    validate_pk cwOk tenant_id key = ([], .ok ())
    ∨ ∃ tg, validate_pk cwOk tenant_id key
        = (violationEvents cwOk tenant_id tg, .error ⟨tg, tenant_id, reprItem key⟩) := by
  unfold validate_pk
  cases hdl : dropLead TENANT_PK_TAG (getAttr key "PK") with
  | none => exact Or.inl rfl
  | some tg =>
    by_cases heq : getAttr key "PK" = TENANT_PK_TAG ++ tenant_id
    · exact Or.inl (if_pos heq)
    · exact Or.inr ⟨tg, if_neg heq⟩

theorem s3_validate_key_shape (cwOk : Bool) (tenant_id : String) (key : String) :
    s3_validate_key cwOk tenant_id key = ([], .ok ())
    ∨ ∃ tg, s3_validate_key cwOk tenant_id key
        = (violationEvents cwOk tenant_id tg, .error ⟨tg, tenant_id, key⟩) := by
  unfold s3_validate_key
  by_cases h : startsWithStr (s3TenantScope tenant_id) key = true
  · exact Or.inl (if_pos h)
  · exact Or.inr ⟨s3TargetTenant key, if_neg h⟩

theorem violationEvents_no_storage (cwOk : Bool) (caller tg : String) :
    ∀ e ∈ violationEvents cwOk caller tg, isStorageCall e = false := by
  have hall : (violationEvents cwOk caller tg).all (fun e => !isStorageCall e) = true := by
    cases cwOk <;> rfl
  intro e he
  have := List.all_eq_true.mp hall e he
  simpa using this

theorem applyEv_nonstorage (s : Store) (e : Ev) (h : isStorageCall e = false) :
    applyEv s e = s := by
  cases e <;> first | rfl | (exact absurd h (by simp [isStorageCall]))

theorem applyS3Ev_nonstorage (b : S3Store) (e : Ev) (h : isStorageCall e = false) :
    applyS3Ev b e = b := by
  cases e <;> first | rfl | (exact absurd h (by simp [isStorageCall]))

theorem runStore_nonstorage (s : Store) (evs : List Ev)
    (h : ∀ e ∈ evs, isStorageCall e = false) : runStore s evs = s := by
  induction evs generalizing s with
  | nil => rfl
  | cons e rest ih =>
    have he : isStorageCall e = false := h e (List.mem_cons_self e rest)
    show runStore (applyEv s e) rest = s
    rw [applyEv_nonstorage s e he]
    exact ih s (fun x hx => h x (List.mem_cons_of_mem e hx))

theorem runS3_nonstorage (b : S3Store) (evs : List Ev)
    (h : ∀ e ∈ evs, isStorageCall e = false) : runS3 b evs = b := by
  induction evs generalizing b with
  | nil => rfl
  | cons e rest ih =>
    have he : isStorageCall e = false := h e (List.mem_cons_self e rest)
    show runS3 (applyS3Ev b e) rest = b
    rw [applyS3Ev_nonstorage b e he]
    exact ih b (fun x hx => h x (List.mem_cons_of_mem e hx))

/-! ## Claim C1 — range queries are forced into the caller's partition -/

theorem mem_applyFilterExpr {it : Item} {f : Option (Item → Bool)} {l : List Item}
    (h : it ∈ applyFilterExpr f l) : it ∈ l := by
  cases f with
  | none => exact h
  | some p => exact List.mem_of_mem_filter h

theorem mem_applyLimit {it : Item} {n : Option Nat} {l : List Item}
    (h : it ∈ applyLimit n l) : it ∈ l := by
  cases n with
  | none => exact h
  | some k => exact (List.take_sublist k l).subset h

theorem mem_applyStartKey {it : Item} {sk : Option Item} {l : List Item}
    (h : it ∈ applyStartKey sk l) : it ∈ l := by
  cases sk with
  | none => exact h
  | some k =>
    exact (List.dropWhile_sublist _).subset ((List.drop_sublist 1 _).subset h)

theorem mem_applyDirection {it : Item} {fwd : Bool} {l : List Item}
    (h : it ∈ applyDirection fwd l) : it ∈ l := by
  cases fwd with
  | true => exact h
  | false => exact List.mem_reverse.mp h

theorem mem_keyConditionFilter {it : Item} {items : List Item} {pkVal : String}
    {skCond : Option (String → Bool)} (h : it ∈ keyConditionFilter items pkVal skCond) :
    getAttr it "PK" = pkVal := by
  have hm := List.mem_filter.mp h
  have hb := hm.2
  rw [Bool.and_eq_true] at hb
  exact beq_iff_eq.mp hb.1

/-- Claim C1: every range query issued through the Guard forces the partition
key to `TENANT#{caller tenant id}` — the caller supplies at most a sort-key
condition, filter, limit, direction and pagination key, never a partition
key — so every item returned by `guard_query` carries the caller's own
encoded tenant, whatever other tenants' items the underlying table holds. -/
theorem query_forces_caller_partition (tenant_id : String) (s : Store) (table : String)
    (skCond : Option (String → Bool)) (filterExpr : Option (Item → Bool))
    (limit : Option Nat) (forward : Bool) (startKey : Option Item) (it : Item)
    (h : it ∈ guard_query tenant_id s table skCond filterExpr limit forward startKey) :
    getAttr it "PK" = TENANT_PK_TAG ++ tenant_id ∧ encodedTenant it = some tenant_id := by
  have hk : getAttr it "PK" = TENANT_PK_TAG ++ tenant_id :=
    mem_keyConditionFilter
      (mem_applyDirection (mem_applyStartKey (mem_applyLimit (mem_applyFilterExpr h))))
  refine ⟨hk, ?_⟩
  unfold encodedTenant
  rw [hk, dropLead_append]

/-- Witness for C1 at a store that also holds another tenant's item. -/
theorem query_forces_caller_partition_witness :
    getAttr [("PK", "TENANT#t1"), ("SK", "INV#a")] "PK" = TENANT_PK_TAG ++ "t1"
    ∧ encodedTenant [("PK", "TENANT#t1"), ("SK", "INV#a")] = some "t1" :=
  query_forces_caller_partition "t1"
    [("platform-invocations", [("PK", "TENANT#t2"), ("SK", "INV#z")]),
     ("platform-invocations", [("PK", "TENANT#t1"), ("SK", "INV#a")])]
    "platform-invocations" none none none true none
    [("PK", "TENANT#t1"), ("SK", "INV#a")] (by decide)

/-! ## Claim C2 — mismatch handling: log, metric exactly once, typed raise -/

/-- Claim C2: on any Guard read/write/delete/update whose key encodes a tenant
`tg` different from the caller's, the Guard produces, in order, (1) the
structured security log naming caller and target, (2) exactly one violation
counter metric emission — whose failure (`cwOk = false`) adds only an error
log and never suppresses what follows — and then (3) surfaces the typed
`TenantAccessViolation` carrying both tenant ids and the offending key. -/
theorem ddb_mismatch_logs_meters_raises (cwOk : Bool) (tenant_id : String) (s : Store)
    (table : String) (key vals : Item) (tg : String)
    (h1 : encodedTenant key = some tg) (h2 : tg ≠ tenant_id) :
    get_item cwOk tenant_id s table key
      = (violationEvents cwOk tenant_id tg, .error ⟨tg, tenant_id, reprItem key⟩)
    ∧ put_item cwOk tenant_id table key
      = (violationEvents cwOk tenant_id tg, .error ⟨tg, tenant_id, reprItem key⟩)
    ∧ update_item cwOk tenant_id s table key vals
      = (violationEvents cwOk tenant_id tg, .error ⟨tg, tenant_id, reprItem key⟩)
    ∧ delete_item cwOk tenant_id table key
      = (violationEvents cwOk tenant_id tg, .error ⟨tg, tenant_id, reprItem key⟩)
    ∧ violationEvents cwOk tenant_id tg
      = [.logViolation tenant_id tg] ++ emit_tenant_violation_metric cwOk tenant_id tg
    ∧ ((violationEvents cwOk tenant_id tg).filter isMetricAttempt).length = 1 := by
  have hv := validate_pk_mismatch cwOk tenant_id key tg h1 h2
  refine ⟨?_, ?_, ?_, ?_, rfl, ?_⟩
  · unfold get_item; rw [hv]; rfl
  · unfold put_item; rw [hv]; rfl
  · unfold update_item; rw [hv]; rfl
  · unfold delete_item; rw [hv]; rfl
  · cases cwOk <;> rfl

/-- Witness for C2: caller tenant `t1` against a key of tenant `t2`, with a
failing CloudWatch client. -/
theorem ddb_mismatch_logs_meters_raises_witness :
    get_item false "t1" [] "T" [("PK", "TENANT#t2")]
      = (violationEvents false "t1" "t2",
         .error ⟨"t2", "t1", reprItem [("PK", "TENANT#t2")]⟩)
    ∧ put_item false "t1" "T" [("PK", "TENANT#t2")]
      = (violationEvents false "t1" "t2",
         .error ⟨"t2", "t1", reprItem [("PK", "TENANT#t2")]⟩)
    ∧ update_item false "t1" [] "T" [("PK", "TENANT#t2")] []
      = (violationEvents false "t1" "t2",
         .error ⟨"t2", "t1", reprItem [("PK", "TENANT#t2")]⟩)
    ∧ delete_item false "t1" "T" [("PK", "TENANT#t2")]
      = (violationEvents false "t1" "t2",
         .error ⟨"t2", "t1", reprItem [("PK", "TENANT#t2")]⟩)
    ∧ violationEvents false "t1" "t2"
      = [.logViolation "t1" "t2"] ++ emit_tenant_violation_metric false "t1" "t2"
    ∧ ((violationEvents false "t1" "t2").filter isMetricAttempt).length = 1 :=
  ddb_mismatch_logs_meters_raises false "t1" [] "T" [("PK", "TENANT#t2")] [] "t2"
    (by decide) (by decide)

/-! ## Claim C10 — validation runs before any storage call -/

theorem guardThen_error {α : Type} (val : List Ev × Except TenantAccessViolation Unit)
    (act : List Ev × α) (evs : List Ev) (v : TenantAccessViolation)
    (h : guardThen val act = (evs, .error v)) : val = (evs, .error v) := by
  rcases val with ⟨evs0, r⟩
  cases r with
  | error v0 =>
    have h' : ((evs0, Except.error v0) : List Ev × Except TenantAccessViolation α)
        = (evs, .error v) := h
    rw [Prod.mk.injEq] at h'
    rw [h'.1]
    have := h'.2
    rw [Except.error.injEq] at this
    rw [this]
  | ok u =>
    have h' : ((evs0 ++ act.1, Except.ok act.2) : List Ev × Except TenantAccessViolation α)
        = (evs, .error v) := h
    rw [Prod.mk.injEq] at h'
    exact absurd h'.2 (by simp)

theorem validate_pk_error_events (cwOk : Bool) (tenant_id : String) (key : Item)
    (evs : List Ev) (v : TenantAccessViolation)
    (h : validate_pk cwOk tenant_id key = (evs, .error v)) :
    ∀ e ∈ evs, isStorageCall e = false := by
  rcases validate_pk_shape cwOk tenant_id key with hok | ⟨tg, herr⟩
  · rw [hok, Prod.mk.injEq] at h
    exact absurd h.2 (by simp)
  · rw [herr, Prod.mk.injEq] at h
    rw [← h.1]
    exact violationEvents_no_storage cwOk tenant_id tg

theorem s3_validate_key_error_events (cwOk : Bool) (tenant_id key : String)
    (evs : List Ev) (v : TenantAccessViolation)
    (h : s3_validate_key cwOk tenant_id key = (evs, .error v)) :
    ∀ e ∈ evs, isStorageCall e = false := by
  rcases s3_validate_key_shape cwOk tenant_id key with hok | ⟨tg, herr⟩
  · rw [hok, Prod.mk.injEq] at h
    exact absurd h.2 (by simp)
  · rw [herr, Prod.mk.injEq] at h
    rw [← h.1]
    exact violationEvents_no_storage cwOk tenant_id tg

/-- Claim C10: for every Guard DynamoDB operation (`get_item`, `put_item`,
`update_item`, `delete_item`) and blob-storage operation (`get_object`,
`put_object`, `delete_object`, `generate_presigned_url`), tenant validation
runs before any call to the underlying store: whenever the operation
surfaces a `TenantAccessViolation`, its event trace contains no storage
call at all, so replaying the trace leaves any store state unchanged. -/
theorem guard_validates_before_store :
    (∀ cwOk tenant_id s table key evs v,
      get_item cwOk tenant_id s table key = (evs, .error v) →
      (∀ e ∈ evs, isStorageCall e = false) ∧ ∀ s0, runStore s0 evs = s0)
    ∧ (∀ cwOk tenant_id table item evs v,
      put_item cwOk tenant_id table item = (evs, .error v) →
      (∀ e ∈ evs, isStorageCall e = false) ∧ ∀ s0, runStore s0 evs = s0)
    ∧ (∀ cwOk tenant_id s table key vals evs v,
      update_item cwOk tenant_id s table key vals = (evs, .error v) →
      (∀ e ∈ evs, isStorageCall e = false) ∧ ∀ s0, runStore s0 evs = s0)
    ∧ (∀ cwOk tenant_id table key evs v,
      delete_item cwOk tenant_id table key = (evs, .error v) →
      (∀ e ∈ evs, isStorageCall e = false) ∧ ∀ s0, runStore s0 evs = s0)
    ∧ (∀ cwOk tenant_id b bucket key evs v,
      get_object cwOk tenant_id b bucket key = (evs, .error v) →
      (∀ e ∈ evs, isStorageCall e = false) ∧ ∀ b0, runS3 b0 evs = b0)
    ∧ (∀ cwOk tenant_id bucket key body evs v,
      put_object cwOk tenant_id bucket key body = (evs, .error v) →
      (∀ e ∈ evs, isStorageCall e = false) ∧ ∀ b0, runS3 b0 evs = b0)
    ∧ (∀ cwOk tenant_id bucket key evs v,
      delete_object cwOk tenant_id bucket key = (evs, .error v) →
      (∀ e ∈ evs, isStorageCall e = false) ∧ ∀ b0, runS3 b0 evs = b0)
    ∧ (∀ cwOk tenant_id bucket key expiresIn clientMethod evs v,
      generate_presigned_url cwOk tenant_id bucket key expiresIn clientMethod
        = (evs, .error v) →
      (∀ e ∈ evs, isStorageCall e = false) ∧ ∀ b0, runS3 b0 evs = b0) := by
  refine ⟨?_, ?_, ?_, ?_, ?_, ?_, ?_, ?_⟩
  · intro cwOk tenant_id s table key evs v h
    have hns := validate_pk_error_events cwOk tenant_id key evs v
      (guardThen_error _ _ _ _ h)
    exact ⟨hns, fun s0 => runStore_nonstorage s0 evs hns⟩
  · intro cwOk tenant_id table item evs v h
    have hns := validate_pk_error_events cwOk tenant_id item evs v
      (guardThen_error _ _ _ _ h)
    exact ⟨hns, fun s0 => runStore_nonstorage s0 evs hns⟩
  · intro cwOk tenant_id s table key vals evs v h
    have hns := validate_pk_error_events cwOk tenant_id key evs v
      (guardThen_error _ _ _ _ h)
    exact ⟨hns, fun s0 => runStore_nonstorage s0 evs hns⟩
  · intro cwOk tenant_id table key evs v h
    have hns := validate_pk_error_events cwOk tenant_id key evs v
      (guardThen_error _ _ _ _ h)
    exact ⟨hns, fun s0 => runStore_nonstorage s0 evs hns⟩
  · intro cwOk tenant_id b bucket key evs v h
    have hns := s3_validate_key_error_events cwOk tenant_id key evs v
      (guardThen_error _ _ _ _ h)
    exact ⟨hns, fun b0 => runS3_nonstorage b0 evs hns⟩
  · intro cwOk tenant_id bucket key body evs v h
    have hns := s3_validate_key_error_events cwOk tenant_id key evs v
      (guardThen_error _ _ _ _ h)
    exact ⟨hns, fun b0 => runS3_nonstorage b0 evs hns⟩
  · intro cwOk tenant_id bucket key evs v h
    have hns := s3_validate_key_error_events cwOk tenant_id key evs v
      (guardThen_error _ _ _ _ h)
    exact ⟨hns, fun b0 => runS3_nonstorage b0 evs hns⟩
  · intro cwOk tenant_id bucket key expiresIn clientMethod evs v h
    have hns := s3_validate_key_error_events cwOk tenant_id key evs v
      (guardThen_error _ _ _ _ h)
    exact ⟨hns, fun b0 => runS3_nonstorage b0 evs hns⟩

/-- Witness for C10: a cross-tenant `get_item` and a cross-tenant
`put_object` both fail with a trace that makes no storage call and leaves
a sample store untouched. -/
theorem guard_validates_before_store_witness :
    ((∀ e ∈ violationEvents true "t1" "t2", isStorageCall e = false)
      ∧ ∀ s0, runStore s0 (violationEvents true "t1" "t2") = s0)
    ∧ ((∀ e ∈ violationEvents true "t1" "t2", isStorageCall e = false)
      ∧ ∀ b0, runS3 b0 (violationEvents true "t1" "t2") = b0) :=
  ⟨guard_validates_before_store.1 true "t1" [] "T" [("PK", "TENANT#t2")]
      (violationEvents true "t1" "t2")
      ⟨"t2", "t1", reprItem [("PK", "TENANT#t2")]⟩ (by decide),
   (guard_validates_before_store.2.2.2.2.2.1) true "t1" "bkt" "tenants/t2/file" "body"
      (violationEvents true "t1" "t2")
      ⟨"t2", "t1", "tenants/t2/file"⟩ (by decide)⟩

/-! ## Claim C3 — the tier gate compares ranks, and only the gate yields 403 -/

theorem invoke_mock_runtime_ne_403 (w : World) (agent : AgentRecord) (ctx : TenantContext)
    (sessionId webhookId : Option String) (requestId : String) :
    respStatus (invoke_mock_runtime w agent ctx sessionId webhookId requestId).2
      ≠ some 403 := by
  unfold invoke_mock_runtime handle_sync_invocation handle_streaming_invocation
    handle_async_invocation
  cases hm : agent.invocation_mode with
  | sync =>
    cases hc : w.connectOk with
    | false => simp [hc, respStatus, error_response]
    | true =>
      cases hs : w.statusOk with
      | false => simp [hc, hs, respStatus, error_response]
      | true => simp [hc, hs, respStatus, error_response]
  | streaming =>
    cases hr : w.hasResponseStream with
    | false => simp [hr, respStatus, error_response]
    | true =>
      cases hc : w.connectOk with
      | false => simp [hr, hc, respStatus, error_response]
      | true =>
        cases hs : w.statusOk with
        | false => simp [hr, hc, hs, respStatus, error_response]
        | true =>
          cases ht : w.streamTermError with
          | false => simp [hr, hc, hs, ht, respStatus, error_response]
          | true => simp [hr, hc, hs, ht, respStatus, error_response]
  | async =>
    cases hf : w.fire with
    | posted => simp [hf, respStatus, error_response]
    | readTimeout => simp [hf, respStatus, error_response]
    | connErr => simp [hf, respStatus, error_response]

/-- Claim C3: with a well-formed request and a resolved agent, the handler
answers 403 FORBIDDEN exactly when the caller's tier rank (basic < standard
< premium, via `tier_order`) is strictly below the rank of the agent's
minimum tier, and otherwise proceeds to dispatch (`invoke_mock_runtime`);
the comparison is the rank order, never string equality. -/
theorem tier_gate_rank_ordering (ev : HandlerEvent) (registry : Option AgentRecord)
    (mockUrl : Option String) (w : World) (requestId : String) (agent : AgentRecord)
    (body : HandlerBody)
    (h1 : pyTruthy ev.tenantid = true) (h2 : pyTruthy ev.appid = true)
    (h3 : pyTruthy ev.agentName = true) (hb : ev.body = some body)
    (h4 : pyTruthy body.input = true) (hreg : registry = some agent) :
    (respStatus (handler ev registry mockUrl w requestId).2 = some 403
      ↔ tier_order ev.tier < tier_order agent.tier_minimum)
    ∧ (¬ tier_order ev.tier < tier_order agent.tier_minimum →
        ∀ url, mockUrl = some url →
        handler ev registry mockUrl w requestId
          = invoke_mock_runtime w agent
              ⟨ev.tenantid.getD "", ev.appid.getD "", ev.tier, ev.sub⟩
              body.sessionId body.webhookId requestId) := by
  unfold handler
  rw [hb, hreg]
  simp only [h1, h2, h3, h4, Bool.not_true, Bool.or_self, Bool.false_eq_true, if_false]
  by_cases ht : tier_order ev.tier < tier_order agent.tier_minimum
  · rw [if_pos ht]
    exact ⟨by simp [respStatus, error_response, ht], fun hcon => absurd ht hcon⟩
  · rw [if_neg ht]
    cases mockUrl with
    | none =>
      refine ⟨?_, ?_⟩
      · simp only [respStatus, error_response]
        constructor
        · intro hcon
          exact absurd (Option.some.injEq _ _ ▸ hcon) (by norm_num)
        · intro hcon
          exact absurd hcon ht
      · intro _ url hcon
        exact absurd hcon (by simp)
    | some url =>
      refine ⟨?_, ?_⟩
      · constructor
        · intro hcon
          exact absurd hcon (invoke_mock_runtime_ne_403 w agent _ _ _ _)
        · intro hcon
          exact absurd hcon ht
      · intro _ u hu
        rfl

/-- Witness for C3: a `basic` caller against a `premium`-minimum agent is
rejected with 403; the same caller at `premium` proceeds to dispatch. -/
theorem tier_gate_rank_ordering_witness :
    (respStatus (handler
        ⟨some "t1", some "a1", .basic, "sub", some "echo", some ⟨some "hi", none, none⟩⟩
        (some ⟨"echo", "1.0.0", "team", .premium, "h", "lk", "sk", "d", .sync, false,
          none, none⟩)
        (some "http://mock") ⟨true, true, [], [], false, .posted, false, true,
          "inv-1", "job-1", "now", 0, 0⟩ "req-1").2 = some 403
      ↔ tier_order .basic < tier_order .premium) :=
  (tier_gate_rank_ordering
    ⟨some "t1", some "a1", .basic, "sub", some "echo", some ⟨some "hi", none, none⟩⟩
    (some ⟨"echo", "1.0.0", "team", .premium, "h", "lk", "sk", "d", .sync, false,
      none, none⟩)
    (some "http://mock") ⟨true, true, [], [], false, .posted, false, true,
      "inv-1", "job-1", "now", 0, 0⟩ "req-1"
    ⟨"echo", "1.0.0", "team", .premium, "h", "lk", "sk", "d", .sync, false, none, none⟩
    ⟨some "hi", none, none⟩
    (by decide) (by decide) (by decide) rfl (by decide) rfl).1

/-! ## Audit-write lemmas shared by the dispatch claims -/

/-- The audit record built by `log_invocation` always carries the caller's
own partition key, so the guarded put passes validation and the trace is
exactly one write to the invocations table. -/
theorem log_invocation_events (cwOk : Bool) (ctx : TenantContext) (agent : AgentRecord)
    (invocationId : String) (status : InvocationStatus) (latencyMs : Nat)
    (mode : InvocationMode) (nowIso : String) (nowTs : Nat) (jobId : Option String) :
    log_invocation cwOk ctx agent invocationId status latencyMs mode nowIso nowTs jobId
      = [.ddbPut INVOCATIONS_TABLE
          (invocationItem ctx agent invocationId status latencyMs mode nowIso nowTs jobId)] := by
  unfold log_invocation put_swallowing put_item
  rw [validate_pk_own cwOk ctx.tenant_id
    (invocationItem ctx agent invocationId status latencyMs mode nowIso nowTs jobId) rfl]
  rfl

/-- The job record built by `log_job` is keyed `JOB#{job_id}`, which the
guard's `TENANT#` check bypasses, so its trace is exactly one write to the
jobs table. -/
theorem log_job_events (cwOk : Bool) (ctx : TenantContext) (agent : AgentRecord)
    (jobId nowIso : String) (nowTs : Nat) (webhookId : Option String) :
    log_job cwOk ctx (jobItem ctx agent jobId nowIso nowTs webhookId)
      = [.ddbPut JOBS_TABLE (jobItem ctx agent jobId nowIso nowTs webhookId)] := rfl

/-! ## Claim C4 — async dispatch versus an unreachable execution target

`handle_async_invocation` absorbs only `requests.exceptions.ReadTimeout`
(`except ReadTimeout: pass`); a connection failure — the unreachable-target
case — propagates to `invoke_mock_runtime`'s blanket handler, which turns
it into 502 BAD_GATEWAY instead of the 202 acceptance. -/

/-- Counterexample to C4 as stated: an async dispatch whose fire step hits an
unreachable execution target (connection error) does NOT return the 202
acceptance — it fails with 502 BAD_GATEWAY. -/
theorem async_unreachable_fails_accept_cex :
    (invoke_mock_runtime
        ⟨true, true, [], [], false, .connErr, false, true, "inv-1", "job-1", "now", 0, 0⟩
        ⟨"echo", "1.0.0", "team", .basic, "h", "lk", "sk", "d", .async, false, none, none⟩
        ⟨"t1", "a1", .basic, "s"⟩ none none "req-1").2
      = error_response 502 "BAD_GATEWAY" "Failed to communicate with agent runtime" "req-1"
    ∧ respStatus (invoke_mock_runtime
        ⟨true, true, [], [], false, .connErr, false, true, "inv-1", "job-1", "now", 0, 0⟩
        ⟨"echo", "1.0.0", "team", .basic, "h", "lk", "sk", "d", .async, false, none, none⟩
        ⟨"t1", "a1", .basic, "s"⟩ none none "req-1").2
      ≠ some 202 := by
  exact ⟨rfl, by decide⟩

/-- Claim C4 as amended: a fire-step timeout (the runtime accepted the
connection but did not answer within the short wait) never fails the async
accept response — the 202 referencing the job id is still returned — while
an outright unreachable target (connection error) yields 502 BAD_GATEWAY
for async dispatch too, exactly as for sync and streaming; the pending job
can later be moved to `failed` by the (spec-modelled) tracker transition. -/
theorem async_dispatch_fire_semantics (w : World) (agent : AgentRecord)
    (ctx : TenantContext) (sessionId webhookId : Option String) (requestId : String) :
    (agent.invocation_mode = .async → w.fire ≠ .connErr →
      (invoke_mock_runtime w agent ctx sessionId webhookId requestId).2
        = .http 202 (.accepted w.freshJobId ("/v1/jobs/" ++ w.freshJobId)
            (if pyTruthy webhookId then "registered" else "not_registered")))
    ∧ (agent.invocation_mode = .async → w.fire = .connErr →
      (invoke_mock_runtime w agent ctx sessionId webhookId requestId).2
        = error_response 502 "BAD_GATEWAY" "Failed to communicate with agent runtime"
            requestId)
    ∧ (agent.invocation_mode = .sync → w.connectOk = false →
      (invoke_mock_runtime w agent ctx sessionId webhookId requestId).2
        = error_response 502 "BAD_GATEWAY" "Failed to communicate with agent runtime"
            requestId)
    ∧ (agent.invocation_mode = .streaming → w.hasResponseStream = true →
        w.connectOk = false →
      (invoke_mock_runtime w agent ctx sessionId webhookId requestId).2
        = error_response 502 "BAD_GATEWAY" "Failed to communicate with agent runtime"
            requestId)
    ∧ jobTransition .pending .failed = .ok .failed := by
  refine ⟨?_, ?_, ?_, ?_, rfl⟩
  · intro hm hf
    cases hfire : w.fire with
    | connErr => exact absurd hfire hf
    | posted =>
      simp only [invoke_mock_runtime, handle_async_invocation, hm, hfire]
    | readTimeout =>
      simp only [invoke_mock_runtime, handle_async_invocation, hm, hfire]
  · intro hm hf
    simp only [invoke_mock_runtime, handle_async_invocation, hm, hf]
  · intro hm hc
    simp only [invoke_mock_runtime, handle_sync_invocation, hm, hc, Bool.not_false,
      if_true]
  · intro hm hr hc
    simp only [invoke_mock_runtime, handle_streaming_invocation, hm, hr, hc,
      Bool.not_false, Bool.not_true, Bool.false_eq_true, if_false, if_true]

/-- Witness for C4 (amended): a read-timeout async dispatch still answers 202
with the job id, and a connection-error async dispatch answers 502. -/
theorem async_dispatch_fire_semantics_witness :
    (invoke_mock_runtime
        ⟨true, true, [], [], false, .readTimeout, false, true, "inv-1", "job-1", "now", 0, 0⟩
        ⟨"echo", "1.0.0", "team", .basic, "h", "lk", "sk", "d", .async, false, none, none⟩
        ⟨"t1", "a1", .basic, "s"⟩ none none "req-1").2
      = .http 202 (.accepted "job-1" ("/v1/jobs/" ++ "job-1")
          (if pyTruthy (none : Option String) then "registered" else "not_registered")) :=
  (async_dispatch_fire_semantics
    ⟨true, true, [], [], false, .readTimeout, false, true, "inv-1", "job-1", "now", 0, 0⟩
    ⟨"echo", "1.0.0", "team", .basic, "h", "lk", "sk", "d", .async, false, none, none⟩
    ⟨"t1", "a1", .basic, "s"⟩ none none "req-1").1 rfl (by decide)

/-! ## Claim C5 — a TenantAccessViolation raised during the audit write is
swallowed, contrary to the never-swallowed hard-fault policy -/

/-- Claim C5 exhibit (code bug): the audit-write wrapper of `log_invocation`
(`try: db.put_item(...) except Exception: logger.exception(...)`,
`bridge/handler.py` lines 511–557, embedded as `put_swallowing`) catches a
`TenantAccessViolation` raised by the Guard and returns normally, appending
only a swallowed-exception log — so a violation during the audit write can
never propagate and the surrounding request still completes.  The third
conjunct shows why the branch is dormant on the current wiring: the record
`log_invocation` itself builds is always keyed by the caller's own tenant,
so the Guard passes there. -/
theorem audit_write_violation_swallowed :
    (put_item true "t1" INVOCATIONS_TABLE [("PK", "TENANT#t2")]).2
      = .error ⟨"t2", "t1", reprItem [("PK", "TENANT#t2")]⟩
    ∧ put_swallowing true ⟨"t1", "a1", .basic, "s"⟩ INVOCATIONS_TABLE
        [("PK", "TENANT#t2")] "Failed to log invocation"
      = violationEvents true "t1" "t2" ++ [.swallowLog "Failed to log invocation"]
    ∧ log_invocation true ⟨"t1", "a1", .basic, "s"⟩
        ⟨"echo", "1.0.0", "team", .basic, "h", "lk", "sk", "d", .sync, false, none, none⟩
        "inv-1" .success 0 .sync "now" 0 none
      = [.ddbPut INVOCATIONS_TABLE
          (invocationItem ⟨"t1", "a1", .basic, "s"⟩
            ⟨"echo", "1.0.0", "team", .basic, "h", "lk", "sk", "d", .sync, false, none, none⟩
            "inv-1" .success 0 .sync "now" 0 none)] := by
  refine ⟨by decide, by decide, ?_⟩
  exact log_invocation_events true ⟨"t1", "a1", .basic, "s"⟩
    ⟨"echo", "1.0.0", "team", .basic, "h", "lk", "sk", "d", .sync, false, none, none⟩
    "inv-1" .success 0 .sync "now" 0 none

/-! ## Claim C6 — the streaming InvocationRecord write -/

def isInvocationWrite : Ev → Bool
  | .ddbPut table _ => table == INVOCATIONS_TABLE
  | _ => false

/-- Counterexample to C6 as stated: when the stream ends with a terminal
error after relaying its chunks, no InvocationRecord is written at all (so
no record "reflects that error status"); the dispatcher instead reports 502
BAD_GATEWAY. -/
theorem streaming_error_writes_no_record_cex :
    (invoke_mock_runtime
        ⟨true, true, [], ["a", "b"], true, .posted, true, true, "inv-1", "job-1", "now",
          0, 0⟩
        ⟨"echo", "1.0.0", "team", .basic, "h", "lk", "sk", "d", .streaming, true, none,
          none⟩
        ⟨"t1", "a1", .basic, "s"⟩ none none "req-1").1
      = [.chunkWrite "a", .chunkWrite "b"]
    ∧ ((invoke_mock_runtime
        ⟨true, true, [], ["a", "b"], true, .posted, true, true, "inv-1", "job-1", "now",
          0, 0⟩
        ⟨"echo", "1.0.0", "team", .basic, "h", "lk", "sk", "d", .streaming, true, none,
          none⟩
        ⟨"t1", "a1", .basic, "s"⟩ none none "req-1").1.filter isInvocationWrite) = []
    ∧ (invoke_mock_runtime
        ⟨true, true, [], ["a", "b"], true, .posted, true, true, "inv-1", "job-1", "now",
          0, 0⟩
        ⟨"echo", "1.0.0", "team", .basic, "h", "lk", "sk", "d", .streaming, true, none,
          none⟩
        ⟨"t1", "a1", .basic, "s"⟩ none none "req-1").2
      = error_response 502 "BAD_GATEWAY" "Failed to communicate with agent runtime"
          "req-1" := by
  decide

/-- Claim C6 as amended: the streaming path writes the InvocationRecord only
after the stream has terminated — the write never precedes or interleaves
with chunk relay — and only when the stream terminates without a terminal
error, in which case the record carries status `success`; on a terminal
error no record is written and the dispatcher reports 502 BAD_GATEWAY. -/
theorem streaming_record_after_relay (w : World) (agent : AgentRecord)
    (ctx : TenantContext) (sessionId webhookId : Option String) (requestId : String)
    (hm : agent.invocation_mode = .streaming) (hr : w.hasResponseStream = true)
    (hc : w.connectOk = true) (hs : w.statusOk = true) :
    (w.streamTermError = false →
      invoke_mock_runtime w agent ctx sessionId webhookId requestId
        = ((w.streamLines.filter (fun l => !l.isEmpty)).map Ev.chunkWrite
            ++ [.ddbPut INVOCATIONS_TABLE
                 (invocationItem ctx agent w.freshInvocationId .success w.latencyMs
                   .streaming w.nowIso w.nowTs none)],
           .streamDone))
    ∧ (w.streamTermError = true →
      invoke_mock_runtime w agent ctx sessionId webhookId requestId
        = ((w.streamLines.filter (fun l => !l.isEmpty)).map Ev.chunkWrite,
           error_response 502 "BAD_GATEWAY" "Failed to communicate with agent runtime"
             requestId)) := by
  constructor
  · intro hterm
    simp only [invoke_mock_runtime, handle_streaming_invocation, hm, hr, hc, hs, hterm,
      Bool.not_true, Bool.false_eq_true, if_false, log_invocation_events]
  · intro hterm
    simp only [invoke_mock_runtime, handle_streaming_invocation, hm, hr, hc, hs, hterm,
      Bool.not_true, Bool.false_eq_true, if_false, if_true]

/-- Witness for C6 (amended): a two-chunk stream that terminates cleanly
relays both chunks and then writes exactly one success record. -/
theorem streaming_record_after_relay_witness :
    invoke_mock_runtime
        ⟨true, true, [], ["a", "b"], false, .posted, true, true, "inv-1", "job-1", "now",
          0, 0⟩
        ⟨"echo", "1.0.0", "team", .basic, "h", "lk", "sk", "d", .streaming, true, none,
          none⟩
        ⟨"t1", "a1", .basic, "s"⟩ none none "req-1"
      = ((["a", "b"].filter (fun l => !l.isEmpty)).map Ev.chunkWrite
          ++ [.ddbPut INVOCATIONS_TABLE
               (invocationItem ⟨"t1", "a1", .basic, "s"⟩
                 ⟨"echo", "1.0.0", "team", .basic, "h", "lk", "sk", "d", .streaming, true,
                   none, none⟩
                 "inv-1" .success 0 .streaming "now" 0 none)],
         .streamDone) :=
  (streaming_record_after_relay
    ⟨true, true, [], ["a", "b"], false, .posted, true, true, "inv-1", "job-1", "now",
      0, 0⟩
    ⟨"echo", "1.0.0", "team", .basic, "h", "lk", "sk", "d", .streaming, true, none, none⟩
    ⟨"t1", "a1", .basic, "s"⟩ none none "req-1" rfl rfl rfl rfl).1 rfl

/-! ## Claim C7 — job status transitions are monotonic (spec-modelled) -/

/-- Claim C7: every transition the (spec-modelled) Job Lifecycle Tracker
accepts moves the status strictly forward along
pending → running → completed | failed, so no operation can move a job's
status backward; in particular completed → running and failed → pending are
rejected. -/
theorem job_transitions_monotonic :
    (∀ s t u, jobTransition s t = .ok u → u = t ∧ jobRank s < jobRank t)
    ∧ jobTransition .completed .running = .error .nonMonotonic
    ∧ jobTransition .failed .pending = .error .nonMonotonic := by
  refine ⟨?_, by decide, by decide⟩
  intro s t u h
  unfold jobTransition at h
  by_cases hlt : jobRank s < jobRank t
  · rw [if_pos hlt] at h
    have ht : t = u := by injection h
    exact ⟨ht.symm, hlt⟩
  · rw [if_neg hlt] at h
    exact absurd h (by simp)

/-- Witness for C7: the pending → running transition is accepted and moves
the rank strictly forward. -/
theorem job_transitions_monotonic_witness :
    JobStatus.running = JobStatus.running ∧ jobRank .pending < jobRank .running :=
  job_transitions_monotonic.1 .pending .running .running (by decide)

/-! ## Claim C8 — lock acquisition is a conditional insert -/

/-- Claim C8: `acquire_lock` performs a conditional insert that succeeds if
and only if no record currently exists for the lock's name; on success it
stores the freshly generated ownership token and an expiry equal to the
acquisition time plus the TTL (whose default is 300 seconds); if a record
already exists it fails with the typed `alreadyHeld` error — the only
contention outcome — leaving the store unchanged. -/
theorem acquire_lock_conditional_insert (store : LockStore)
    (name owner freshId iso : String) (nowTs ttl : Nat) :
    (lookupLock store name = none →
      acquire_lock store name owner freshId iso nowTs ttl
        = ((name, ⟨name, freshId, owner, iso, nowTs + ttl⟩) :: store,
           .ok ⟨name, freshId, owner, iso, nowTs + ttl⟩))
    ∧ (∀ r, lookupLock store name = some r →
      acquire_lock store name owner freshId iso nowTs ttl
        = (store, .error .alreadyHeld))
    ∧ ((∃ rec, (acquire_lock store name owner freshId iso nowTs ttl).2 = .ok rec)
        ↔ lookupLock store name = none)
    ∧ DEFAULT_LOCK_TTL_SECONDS = 300 := by
  refine ⟨?_, ?_, ?_, rfl⟩
  · intro h
    unfold acquire_lock
    rw [h]
  · intro r h
    unfold acquire_lock
    rw [h]
  · cases hl : lookupLock store name with
    | none =>
      refine ⟨fun _ => rfl, fun _ => ⟨⟨name, freshId, owner, iso, nowTs + ttl⟩, ?_⟩⟩
      unfold acquire_lock
      rw [hl]
    | some r =>
      constructor
      · intro ⟨rec, hrec⟩
        unfold acquire_lock at hrec
        rw [hl] at hrec
        exact absurd hrec (by simp)
      · intro hcon
        exact absurd hcon (by simp)

/-- Witness for C8: acquiring a free lock with the default 300-second TTL
inserts the fresh token with expiry `nowTs + 300`. -/
theorem acquire_lock_conditional_insert_witness :
    acquire_lock [] "platform-runtime-failover" "ops" "uuid-1" "t0" 100
        DEFAULT_LOCK_TTL_SECONDS
      = ([("platform-runtime-failover",
           ⟨"platform-runtime-failover", "uuid-1", "ops", "t0", 100 + DEFAULT_LOCK_TTL_SECONDS⟩)],
         .ok ⟨"platform-runtime-failover", "uuid-1", "ops", "t0",
           100 + DEFAULT_LOCK_TTL_SECONDS⟩) :=
  (acquire_lock_conditional_insert [] "platform-runtime-failover" "ops" "uuid-1" "t0" 100
    DEFAULT_LOCK_TTL_SECONDS).1 (by decide)

/-! ## Claim C9 — lock release is a conditional delete on the stored token -/

/-- Claim C9: with a presented ownership token, `release_lock` deletes the
record exactly when the stored token equals the presented one; on a
mismatch — or an absent record, where DynamoDB's conditional check also
fails — it raises the typed `ownershipMismatch` error and leaves the store
untouched. -/
theorem release_lock_conditional_delete (store : LockStore) (name tok : String) :
    (∀ r, lookupLock store name = some r → r.lock_id = tok →
      release_lock store name (some tok) = (removeLock store name, .ok true))
    ∧ (∀ r, lookupLock store name = some r → r.lock_id ≠ tok →
      release_lock store name (some tok) = (store, .error .ownershipMismatch))
    ∧ (lookupLock store name = none →
      release_lock store name (some tok) = (store, .error .ownershipMismatch)) := by
  refine ⟨?_, ?_, ?_⟩
  · intro r h heq
    simp only [release_lock, h]
    rw [if_pos heq]
  · intro r h hne
    simp only [release_lock, h]
    rw [if_neg hne]
  · intro h
    simp only [release_lock, h]

/-- Witness for C9: releasing with the stored token removes the record;
releasing with a different token errors and leaves the store unchanged. -/
theorem release_lock_conditional_delete_witness :
    (release_lock [("L", ⟨"L", "uuid-1", "ops", "t0", 400⟩)] "L" (some "uuid-1")
      = (removeLock [("L", ⟨"L", "uuid-1", "ops", "t0", 400⟩)] "L", .ok true))
    ∧ (release_lock [("L", ⟨"L", "uuid-1", "ops", "t0", 400⟩)] "L" (some "uuid-2")
      = ([("L", ⟨"L", "uuid-1", "ops", "t0", 400⟩)], .error .ownershipMismatch)) :=
  ⟨(release_lock_conditional_delete [("L", ⟨"L", "uuid-1", "ops", "t0", 400⟩)] "L"
      "uuid-1").1 ⟨"L", "uuid-1", "ops", "t0", 400⟩ (by decide) (by decide),
   (release_lock_conditional_delete [("L", ⟨"L", "uuid-1", "ops", "t0", 400⟩)] "L"
      "uuid-2").2.1 ⟨"L", "uuid-1", "ops", "t0", 400⟩ (by decide) (by decide)⟩
